import Mathlib

/-!
Verification of the CVrio OAuth server (`src/auth.js`).

The file shallowly embeds the program: environment/config loading and
`validateConfig`, the in-memory session slot (`currentUser`), and the five
route handlers (`/`, `/auth/google/callback`, `/logout`, `/profile`,
`/health`).  Handlers are modelled as pure functions from the request data,
the current session slot and (for the callback) the behaviour of the three
outbound collaborators (token endpoint, userinfo endpoint, store upsert) to
a response, the new session slot and the list of outbound calls performed.
Response bodies are modelled structurally: each page template of the source
becomes a constructor carrying exactly the dynamic values interpolated into
it; timestamps (`new Date().toISOString()`) are passed in as a parameter.
-/

namespace CVrio

/-- JavaScript truthiness of a possibly-absent string: `undefined` and the
empty string are falsy, every other string is truthy.  Mirrors `!x` / `!!x`
and bare `if (x)` tests on `process.env` values and query parameters. -/
def truthy : Option String → Bool
  | none => false
  | some s => s != ""

/-- JavaScript `x || d` on a possibly-absent string: yields `d` when `x` is
`undefined` or the empty string, otherwise the string itself. -/
def jsOrStr : Option String → String → String
  | none, d => d
  | some s, d => if s == "" then d else s

/-- The raw environment variables read by `src/auth.js` (each either set to
a string, possibly empty, or unset). -/
structure Env where
  supabaseUrl : Option String
  supabaseAnonKey : Option String
  googleClientId : Option String
  googleClientSecret : Option String
  redirectUriVar : Option String
  portVar : Option String
  nodeEnvVar : Option String
deriving Repr, DecidableEq

/-- `envConfig.database` in the source. -/
structure DatabaseConfig where
  url : Option String
  key : Option String
deriving Repr, DecidableEq

/-- `envConfig.oauth.google` in the source (`redirectUri` already has its
default applied by `process.env.REDIRECT_URI || 'http://localhost:3000/auth/google/callback'`). -/
structure GoogleOAuthConfig where
  clientId : Option String
  clientSecret : Option String
  redirectUri : String
deriving Repr, DecidableEq

/-- `envConfig.server` in the source, defaults applied by `||`. -/
structure ServerConfig where
  port : String
  nodeEnv : String
deriving Repr, DecidableEq

/-- The `envConfig` configuration structure of `src/auth.js`. -/
structure EnvConfig where
  database : DatabaseConfig
  oauth : GoogleOAuthConfig
  server : ServerConfig
deriving Repr, DecidableEq

/-- Construction of `envConfig` from the environment (lines 21-45 of the
source): credentials are taken verbatim, the redirect URI, port and node
environment get their `||` defaults. -/
def mkEnvConfig (e : Env) : EnvConfig :=
  { database := { url := e.supabaseUrl, key := e.supabaseAnonKey }
    oauth :=
      { clientId := e.googleClientId
        clientSecret := e.googleClientSecret
        redirectUri := jsOrStr e.redirectUriVar "http://localhost:3000/auth/google/callback" }
    server :=
      { port := jsOrStr e.portVar "3000"
        nodeEnv := jsOrStr e.nodeEnvVar "development" } }

/-- The list `missingVars` accumulated by `validateConfig` (lines 49-54):
one entry per falsy required configuration value, in source order. -/
def missingVars (c : EnvConfig) : List String :=
  (if truthy c.database.url then [] else ["SUPABASE_URL"]) ++
  (if truthy c.database.key then [] else ["SUPABASE_ANON_KEY"]) ++
  (if truthy c.oauth.clientId then [] else ["GOOGLE_CLIENT_ID"]) ++
  (if truthy c.oauth.clientSecret then [] else ["GOOGLE_CLIENT_SECRET"])

/-- Outcome of startup: either the process terminates via `process.exit`
with the given exit code after reporting the listed missing variable names
(so `app.listen` is never reached and the server never serves traffic), or
startup proceeds to create the Supabase client and listen. -/
inductive StartupOutcome where
  | exitProcess (exitCode : Nat) (reportedMissing : List String)
  | proceed
deriving Repr, DecidableEq

/-- `validateConfig` (lines 48-63): collects the missing required variables;
if any are missing it reports them and calls `process.exit(1)`, otherwise
startup continues. -/
def validateConfig (c : EnvConfig) : StartupOutcome :=
  let m := missingVars c
  if m.isEmpty then .proceed else .exitProcess 1 m

/-- The in-memory authenticated user (`currentUser` object built at lines
241-246). -/
structure AuthenticatedUser where
  id : String
  email : String
  name : String
  picture : String
deriving Repr, DecidableEq

/-- The session slot `currentUser` (line 76): a single optional in-memory
`AuthenticatedUser`. -/
abbrev Session := Option AuthenticatedUser

/-- Profile data returned by the Google userinfo endpoint (the fields of
`userResponse.data` the source reads). -/
structure GoogleUser where
  id : String
  email : String
  name : String
  picture : String
deriving Repr, DecidableEq

/-- `tokenResponse.data` from the token endpoint: the field the source
destructures. -/
structure TokenData where
  access_token : String
deriving Repr, DecidableEq

/-- Result of an `axios` call: either a 2xx response with parsed data, or a
thrown error (transport failure or non-2xx response) carrying the
`err.message` the catch block reports. -/
inductive AxiosResult (α : Type) where
  | ok (data : α)
  | err (message : String)
deriving Repr, DecidableEq

/-- The error object Supabase may return from the upsert (the fields the
source reads at lines 222-233; `hint` may be absent). -/
structure SupabaseError where
  message : String
  details : String
  hint : Option String
  code : String
deriving Repr, DecidableEq

/-- Behaviour of the three outbound collaborators of the callback handler:
the token endpoint POST, the userinfo GET (a function of the bearer access
token), and the Supabase upsert (a function of the profile being stored;
`none` means the upsert succeeded, `some e` means it returned error `e`). -/
structure CallbackNet where
  tokenExchange : AxiosResult TokenData
  userinfo : String → AxiosResult GoogleUser
  upsert : GoogleUser → Option SupabaseError

/-- The query parameters of a callback request: each is absent, or present
with a (possibly empty) string value, exactly as Express `req.query`
delivers them. -/
structure Query where
  code : Option String
  error : Option String
deriving Repr, DecidableEq

/-- The body of the profile JSON error response (lines 302-306). -/
structure ProfileErrBody where
  error : String
  message : String
  loginUrl : String
deriving Repr, DecidableEq

/-- The body of the profile JSON success response (lines 309-313). -/
structure ProfileOkBody where
  message : String
  user : AuthenticatedUser
  timestamp : String
deriving Repr, DecidableEq

/-- The `config` sub-object of the health JSON response (lines 323-327). -/
structure HealthConfig where
  port : String
  hasDatabase : Bool
  hasGoogleOAuth : Bool
deriving Repr, DecidableEq

/-- The body of the health JSON response (lines 318-328). -/
structure HealthBody where
  status : String
  timestamp : String
  environment : String
  authenticated : Bool
  config : HealthConfig
deriving Repr, DecidableEq

/-- Response bodies of the program, one constructor per template in the
source, carrying exactly the dynamic values interpolated into it. -/
inductive Body where
  /-- logged-in home page: interpolates `currentUser.name`, `.picture`, `.email` -/
  | homeAuthed (name : String) (picture : String) (email : String)
  /-- logged-out home page (static) -/
  | homeAnon
  /-- 400 `Authentication Error` page interpolating the `error` query value -/
  | oauthErrorPage (errorValue : String)
  /-- 400 `Authentication Failed` / `No authorization code provided` page (static) -/
  | noCodePage
  /-- 500 `Database Error` page interpolating the store message and hint -/
  | dbErrorPage (message : String) (hint : String)
  /-- 500 `Authentication Failed` page of the catch block, interpolating `err.message` -/
  | authFailedPage (message : String)
  /-- redirect (`res.redirect`), carrying the Location target -/
  | redirectTo (location : String)
  /-- logged-out confirmation page (static) -/
  | logoutPage
  /-- `/profile` 401 JSON body -/
  | profileErr (b : ProfileErrBody)
  /-- `/profile` 200 JSON body -/
  | profileOk (b : ProfileOkBody)
  /-- `/health` 200 JSON body -/
  | health (b : HealthBody)
deriving Repr, DecidableEq

/-- An HTTP response: status code and (structured) body. -/
structure Response where
  status : Nat
  body : Body
deriving Repr, DecidableEq

/-- Result of a handler that performs no outbound calls: the response and
the value of the `currentUser` slot after the request. -/
structure HandlerResult where
  response : Response
  session : Session
deriving Repr, DecidableEq

/-- The outbound network calls the callback handler can make, in order. -/
inductive NetCall where
  | tokenPost
  | userinfoGet
  | upsertCall
deriving Repr, DecidableEq

/-- Result of the callback handler: response, the session slot after the
request, and the trace of outbound calls performed. -/
structure CallbackResult where
  response : Response
  session : Session
  calls : List NetCall
deriving Repr, DecidableEq

/-- The `/` handler (lines 79-148): renders the logged-in view when
`currentUser` is set, the login view otherwise; never writes the slot. -/
def homeHandler (sess : Session) : HandlerResult :=
  match sess with
  | some u => { response := { status := 200, body := .homeAuthed u.name u.picture u.email }
                session := sess }
  | none => { response := { status := 200, body := .homeAnon }, session := sess }

/-- The `/auth/google/callback` handler (lines 162-267).  Guards: a truthy
`error` query parameter yields the 400 `Authentication Error` page, then a
falsy `code` yields the 400 no-code page, both before any outbound call.
Otherwise: token exchange, userinfo fetch (each thrown failure lands in the
catch block: 500 `Authentication Failed` with the error message, slot
untouched), then the Supabase upsert (an error object yields the 500
`Database Error` page with message and `hint || 'Check your Supabase table
configuration'`, slot untouched); only after a successful upsert is
`currentUser` replaced and the browser redirected to `/`. -/
def callbackHandler (q : Query) (net : CallbackNet) (sess : Session) : CallbackResult :=
  if truthy q.error then
    { response := { status := 400, body := .oauthErrorPage (q.error.getD "") }
      session := sess, calls := [] }
  else if !truthy q.code then
    { response := { status := 400, body := .noCodePage }, session := sess, calls := [] }
  else
    match net.tokenExchange with
    | .err m =>
        { response := { status := 500, body := .authFailedPage m }
          session := sess, calls := [.tokenPost] }
    | .ok tok =>
        match net.userinfo tok.access_token with
        | .err m =>
            { response := { status := 500, body := .authFailedPage m }
              session := sess, calls := [.tokenPost, .userinfoGet] }
        | .ok user =>
            match net.upsert user with
            | some e =>
                { response :=
                    { status := 500
                      body := .dbErrorPage e.message
                        (jsOrStr e.hint "Check your Supabase table configuration") }
                  session := sess, calls := [.tokenPost, .userinfoGet, .upsertCall] }
            | none =>
                { response := { status := 302, body := .redirectTo "/" }
                  session := some { id := user.id, email := user.email
                                    name := user.name, picture := user.picture }
                  calls := [.tokenPost, .userinfoGet, .upsertCall] }

/-- The `/logout` handler (lines 270-297): clears `currentUser` (a no-op if
already clear) and serves the logged-out page. -/
def logoutHandler (sess : Session) : HandlerResult :=
  match sess with
  | some _ => { response := { status := 200, body := .logoutPage }, session := none }
  | none => { response := { status := 200, body := .logoutPage }, session := none }

/-- The `/profile` handler (lines 300-314): 401 JSON with login URL when no
user is authenticated, otherwise 200 JSON with the session's user and the
current timestamp; never writes the slot. -/
def profileHandler (sess : Session) (now : String) : HandlerResult :=
  match sess with
  | none =>
      { response :=
          { status := 401
            body := .profileErr
              { error := "Unauthorized", message := "Please log in first"
                loginUrl := "/auth/google" } }
        session := sess }
  | some u =>
      { response :=
          { status := 200
            body := .profileOk
              { message := "This is a protected route", user := u, timestamp := now } }
        session := sess }

/-- The `/health` handler (lines 317-329): always 200 JSON; `authenticated`
is `!!currentUser`, `hasDatabase` is `!!envConfig.database.url`,
`hasGoogleOAuth` is `!!envConfig.oauth.google.clientId`; never writes the
slot. -/
def healthHandler (c : EnvConfig) (sess : Session) (now : String) : HandlerResult :=
  { response :=
      { status := 200
        body := .health
          { status := "OK", timestamp := now, environment := c.server.nodeEnv
            authenticated := sess.isSome
            config :=
              { port := c.server.port
                hasDatabase := truthy c.database.url
                hasGoogleOAuth := truthy c.oauth.clientId } } }
    session := sess }

/-- Formalisation of the SPEC's words for claim C8 (not of the code): the
"Google OAuth credentials" are set when both the client id and the client
secret are truthy. -/
def googleCredsSetSpec (c : EnvConfig) : Bool :=
  truthy c.oauth.clientId && truthy c.oauth.clientSecret

/-- Helper: a callback run that changes the session slot went through a
successful token exchange, userinfo fetch and upsert, and stored exactly
the fetched profile. -/
theorem callback_session_change_success (q : Query) (net : CallbackNet) (sess : Session)
    (hne : (callbackHandler q net sess).session ≠ sess) :
    ∃ (tok : TokenData) (user : GoogleUser),
      net.tokenExchange = .ok tok ∧
      net.userinfo tok.access_token = .ok user ∧
      net.upsert user = none ∧
      (callbackHandler q net sess).session =
        some { id := user.id, email := user.email
               name := user.name, picture := user.picture } := by
  by_cases he : truthy q.error = true
  · simp [callbackHandler, he] at hne
  · by_cases hc : truthy q.code = true
    · cases htok : net.tokenExchange with
      | err m => simp [callbackHandler, he, hc, htok] at hne
      | ok tok =>
        cases hu : net.userinfo tok.access_token with
        | err m => simp [callbackHandler, he, hc, htok, hu] at hne
        | ok user =>
          cases hup : net.upsert user with
          | some e => simp [callbackHandler, he, hc, htok, hu, hup] at hne
          | none =>
            exact ⟨tok, user, rfl, hu, hup,
              by simp [callbackHandler, he, hc, htok, hu, hup]⟩
    · simp [callbackHandler, he, hc] at hne

/-- C1: if the store upsert reports an error, the callback handler responds
500 with the `Database Error` page carrying the store's error message and
the remediation hint (the store's hint when present and non-empty, the
default hint otherwise), and the session slot is left exactly in its prior
state. -/
theorem callback_upsert_failure_keeps_session (q : Query) (net : CallbackNet)
    (sess : Session) (tok : TokenData) (user : GoogleUser) (e : SupabaseError)
    (herr : truthy q.error = false) (hcode : truthy q.code = true)
    (htok : net.tokenExchange = .ok tok)
    (huser : net.userinfo tok.access_token = .ok user)
    (hup : net.upsert user = some e) :
    (callbackHandler q net sess).response =
      { status := 500
        body := .dbErrorPage e.message
          (jsOrStr e.hint "Check your Supabase table configuration") } ∧
    (callbackHandler q net sess).session = sess := by
  simp [callbackHandler, herr, hcode, htok, huser, hup]

theorem callback_upsert_failure_keeps_session_witness :
    (callbackHandler { code := some "c", error := none }
        { tokenExchange := .ok { access_token := "t1" }
          userinfo := fun _ => .ok { id := "1", email := "a@b.com", name := "A", picture := "p" }
          upsert := fun _ =>
            some { message := "boom", details := "d", hint := none, code := "500" } }
        (some { id := "9", email := "old@b.com", name := "Old", picture := "q" })).response =
      { status := 500
        body := .dbErrorPage "boom" "Check your Supabase table configuration" } ∧
    (callbackHandler { code := some "c", error := none }
        { tokenExchange := .ok { access_token := "t1" }
          userinfo := fun _ => .ok { id := "1", email := "a@b.com", name := "A", picture := "p" }
          upsert := fun _ =>
            some { message := "boom", details := "d", hint := none, code := "500" } }
        (some { id := "9", email := "old@b.com", name := "Old", picture := "q" })).session =
      some { id := "9", email := "old@b.com", name := "Old", picture := "q" } := by
  exact callback_upsert_failure_keeps_session _ _ _
    { access_token := "t1" }
    { id := "1", email := "a@b.com", name := "A", picture := "p" }
    { message := "boom", details := "d", hint := none, code := "500" }
    rfl rfl rfl rfl rfl

/-- C2: the session slot is replaced with the new `AuthenticatedUser`
`{id, email, name, picture}` only after the store upsert succeeds (any run
that changes the slot went through a successful token exchange, userinfo
fetch and upsert), the handler then redirects (302) to `/`, and a
subsequent `/profile` request returns 200 with exactly the id, email, name
and picture fetched from the userinfo endpoint. -/
theorem callback_success_commits_and_profile (q : Query) (net : CallbackNet)
    (sess : Session) (tok : TokenData) (user : GoogleUser) (now : String)
    (herr : truthy q.error = false) (hcode : truthy q.code = true)
    (htok : net.tokenExchange = .ok tok)
    (huser : net.userinfo tok.access_token = .ok user)
    (hup : net.upsert user = none) :
    (callbackHandler q net sess).response = { status := 302, body := .redirectTo "/" } ∧
    (callbackHandler q net sess).session =
      some { id := user.id, email := user.email, name := user.name, picture := user.picture } ∧
    (profileHandler (callbackHandler q net sess).session now).response =
      { status := 200
        body := .profileOk
          { message := "This is a protected route"
            user := { id := user.id, email := user.email
                      name := user.name, picture := user.picture }
            timestamp := now } } ∧
    (∀ (q2 : Query) (net2 : CallbackNet) (sess2 : Session),
      (callbackHandler q2 net2 sess2).session ≠ sess2 →
      ∃ (tok2 : TokenData) (user2 : GoogleUser),
        net2.tokenExchange = .ok tok2 ∧
        net2.userinfo tok2.access_token = .ok user2 ∧
        net2.upsert user2 = none ∧
        (callbackHandler q2 net2 sess2).session =
          some { id := user2.id, email := user2.email
                 name := user2.name, picture := user2.picture }) := by
  refine ⟨?_, ?_, ?_, fun q2 net2 sess2 hne => callback_session_change_success q2 net2 sess2 hne⟩
  · simp [callbackHandler, herr, hcode, htok, huser, hup]
  · simp [callbackHandler, herr, hcode, htok, huser, hup]
  · simp [callbackHandler, profileHandler, herr, hcode, htok, huser, hup]

theorem callback_success_commits_and_profile_witness :
    (callbackHandler { code := some "code2", error := none }
        { tokenExchange := .ok { access_token := "t2" }
          userinfo := fun _ => .ok { id := "2", email := "b@c.com", name := "B", picture := "pb" }
          upsert := fun _ => none } none).response =
      { status := 302, body := .redirectTo "/" } ∧
    (callbackHandler { code := some "code2", error := none }
        { tokenExchange := .ok { access_token := "t2" }
          userinfo := fun _ => .ok { id := "2", email := "b@c.com", name := "B", picture := "pb" }
          upsert := fun _ => none } none).session =
      some { id := "2", email := "b@c.com", name := "B", picture := "pb" } :=
  have h := callback_success_commits_and_profile
    { code := some "code2", error := none }
    { tokenExchange := .ok { access_token := "t2" }
      userinfo := fun _ => .ok { id := "2", email := "b@c.com", name := "B", picture := "pb" }
      upsert := fun _ => none }
    none { access_token := "t2" }
    { id := "2", email := "b@c.com", name := "B", picture := "pb" }
    "now" rfl rfl rfl rfl rfl
  ⟨h.1, h.2.1⟩

/-- C3 counterexample: the request `/auth/google/callback?error=&code=c3`
carries an `error` parameter (present with empty value, so `req.query.error`
is the falsy `""`), yet the handler does not answer 400: with a succeeding
collaborator it answers 302 and the token endpoint is called once. -/
theorem callback_error_param_empty_counterexample :
    ({ code := some "c3", error := some "" } : Query).error ≠ none ∧
    (callbackHandler { code := some "c3", error := some "" }
        { tokenExchange := .ok { access_token := "t3" }
          userinfo := fun _ => .ok { id := "3", email := "c@d.com", name := "C", picture := "pc" }
          upsert := fun _ => none } none).response.status = 302 ∧
    NetCall.tokenPost ∈
      (callbackHandler { code := some "c3", error := some "" }
        { tokenExchange := .ok { access_token := "t3" }
          userinfo := fun _ => .ok { id := "3", email := "c@d.com", name := "C", picture := "pc" }
          upsert := fun _ => none } none).calls := by
  refine ⟨by simp, rfl, ?_⟩
  simp [callbackHandler, truthy]

/-- C3 amended: for every callback request whose `error` query parameter is
truthy (present and non-empty), or whose `code` query parameter is falsy
(absent or empty), the handler responds 400 and performs no outbound
network call — in particular the token-exchange endpoint is invoked zero
times. -/
theorem callback_guard_no_network (q : Query) (net : CallbackNet) (sess : Session)
    (h : truthy q.error = true ∨ truthy q.code = false) :
    (callbackHandler q net sess).response.status = 400 ∧
    (callbackHandler q net sess).calls = [] := by
  rcases h with he | hc
  · simp [callbackHandler, he]
  · by_cases he : truthy q.error = true
    · simp [callbackHandler, he]
    · simp [callbackHandler, he, hc]

theorem callback_guard_no_network_witness :
    (truthy ({ code := none, error := some "access_denied" } : Query).error = true ∨
      truthy ({ code := none, error := some "access_denied" } : Query).code = false) ∧
    (callbackHandler { code := none, error := some "access_denied" }
        { tokenExchange := .err "unreachable"
          userinfo := fun _ => .err "unreachable"
          upsert := fun _ => none } none).response.status = 400 ∧
    (callbackHandler { code := none, error := some "access_denied" }
        { tokenExchange := .err "unreachable"
          userinfo := fun _ => .err "unreachable"
          upsert := fun _ => none } none).calls = [] :=
  ⟨Or.inl rfl,
    callback_guard_no_network { code := none, error := some "access_denied" }
      { tokenExchange := .err "unreachable"
        userinfo := fun _ => .err "unreachable"
        upsert := fun _ => none } none (Or.inl rfl)⟩

/-- C9 counterexample: the request `/auth/google/callback?error=&code=x9`
carries both an `error` and a `code` parameter, yet the response is not the
400 `Authentication Error` page and a token exchange is attempted, because
the empty `error` value is falsy. -/
theorem callback_error_and_code_counterexample :
    ({ code := some "x9", error := some "" } : Query).error ≠ none ∧
    ({ code := some "x9", error := some "" } : Query).code ≠ none ∧
    (callbackHandler { code := some "x9", error := some "" }
        { tokenExchange := .err "token endpoint down"
          userinfo := fun _ => .err "unreachable"
          upsert := fun _ => none } none).response =
      { status := 500, body := .authFailedPage "token endpoint down" } ∧
    (callbackHandler { code := some "x9", error := some "" }
        { tokenExchange := .err "token endpoint down"
          userinfo := fun _ => .err "unreachable"
          upsert := fun _ => none } none).calls = [.tokenPost] := by
  refine ⟨by simp, by simp, ?_, ?_⟩ <;> simp [callbackHandler, truthy]

/-- C9 amended: the `error` query parameter is checked before `code`: for
every request whose `error` parameter is truthy (present and non-empty),
regardless of any `code` parameter, the response is the 400
`Authentication Error` page naming the error value, and no token exchange
is attempted. -/
theorem callback_error_checked_before_code (q : Query) (net : CallbackNet)
    (sess : Session) (e : String) (herr : q.error = some e) (hne : e ≠ "") :
    (callbackHandler q net sess).response =
      { status := 400, body := .oauthErrorPage e } ∧
    (callbackHandler q net sess).calls = [] := by
  have ht : truthy (some e) = true := by simp [truthy, hne]
  simp [callbackHandler, herr, ht]

theorem callback_error_checked_before_code_witness :
    ({ code := some "code9", error := some "consent_required" } : Query).error =
      some "consent_required" ∧
    "consent_required" ≠ "" ∧
    (callbackHandler { code := some "code9", error := some "consent_required" }
        { tokenExchange := .ok { access_token := "t9" }
          userinfo := fun _ => .ok { id := "9", email := "i@j.com", name := "I", picture := "pi" }
          upsert := fun _ => none } none).response =
      { status := 400, body := .oauthErrorPage "consent_required" } ∧
    (callbackHandler { code := some "code9", error := some "consent_required" }
        { tokenExchange := .ok { access_token := "t9" }
          userinfo := fun _ => .ok { id := "9", email := "i@j.com", name := "I", picture := "pi" }
          upsert := fun _ => none } none).calls = [] := by
  refine ⟨rfl, by decide, ?_⟩
  exact callback_error_checked_before_code _ _ none "consent_required" rfl (by decide)

/-- C4: if any of the provider client id, provider client secret, database
URL or database key is missing (falsy: unset or empty, the code's and the
spec's notion of absence), startup terminates via `process.exit(1)` — a
non-zero exit, so `app.listen` is never reached — after reporting exactly
the names of the missing variables; if all four are present, startup
proceeds. -/
theorem validateConfig_exits_on_missing (c : EnvConfig) :
    ((truthy c.database.url = false ∨ truthy c.database.key = false ∨
      truthy c.oauth.clientId = false ∨ truthy c.oauth.clientSecret = false) →
      validateConfig c = .exitProcess 1 (missingVars c) ∧
      missingVars c ≠ [] ∧
      (truthy c.database.url = false ↔ "SUPABASE_URL" ∈ missingVars c) ∧
      (truthy c.database.key = false ↔ "SUPABASE_ANON_KEY" ∈ missingVars c) ∧
      (truthy c.oauth.clientId = false ↔ "GOOGLE_CLIENT_ID" ∈ missingVars c) ∧
      (truthy c.oauth.clientSecret = false ↔ "GOOGLE_CLIENT_SECRET" ∈ missingVars c)) ∧
    ((truthy c.database.url = true ∧ truthy c.database.key = true ∧
      truthy c.oauth.clientId = true ∧ truthy c.oauth.clientSecret = true) →
      validateConfig c = .proceed) := by
  cases hu : truthy c.database.url <;> cases hk : truthy c.database.key <;>
    cases hi : truthy c.oauth.clientId <;> cases hs : truthy c.oauth.clientSecret <;>
    simp [validateConfig, missingVars, hu, hk, hi, hs]

theorem validateConfig_exits_on_missing_witness :
    validateConfig (mkEnvConfig
        { supabaseUrl := none, supabaseAnonKey := some "anon-key"
          googleClientId := some "", googleClientSecret := some "secret"
          redirectUriVar := none, portVar := none, nodeEnvVar := none }) =
      .exitProcess 1 ["SUPABASE_URL", "GOOGLE_CLIENT_ID"] ∧
    validateConfig (mkEnvConfig
        { supabaseUrl := some "https://db.example", supabaseAnonKey := some "anon-key"
          googleClientId := some "gid", googleClientSecret := some "secret"
          redirectUriVar := none, portVar := none, nodeEnvVar := none }) =
      .proceed := by
  constructor
  · have h := (validateConfig_exits_on_missing (mkEnvConfig
      { supabaseUrl := none, supabaseAnonKey := some "anon-key"
        googleClientId := some "", googleClientSecret := some "secret"
        redirectUriVar := none, portVar := none, nodeEnvVar := none })).1
      (Or.inl rfl)
    rw [h.1]; rfl
  · exact (validateConfig_exits_on_missing (mkEnvConfig
      { supabaseUrl := some "https://db.example", supabaseAnonKey := some "anon-key"
        googleClientId := some "gid", googleClientSecret := some "secret"
        redirectUriVar := none, portVar := none, nodeEnvVar := none })).2
      ⟨rfl, rfl, rfl, rfl⟩

/-- C5: if the token exchange fails (transport error or non-2xx, both
thrown by axios), or it succeeds and the userinfo fetch fails, the callback
handler responds 500 with the `Authentication Failed` page carrying the
failure's message, and the session slot is not modified. -/
theorem callback_exchange_failure_500 (q : Query) (net : CallbackNet)
    (sess : Session) (m : String)
    (herr : truthy q.error = false) (hcode : truthy q.code = true)
    (hfail : net.tokenExchange = .err m ∨
      ∃ tok, net.tokenExchange = .ok tok ∧ net.userinfo tok.access_token = .err m) :
    (callbackHandler q net sess).response =
      { status := 500, body := .authFailedPage m } ∧
    (callbackHandler q net sess).session = sess := by
  rcases hfail with h | ⟨tok, h1, h2⟩
  · simp [callbackHandler, herr, hcode, h]
  · simp [callbackHandler, herr, hcode, h1, h2]

theorem callback_exchange_failure_500_witness :
    (callbackHandler { code := some "c5", error := none }
        { tokenExchange := .err "Request failed with status code 400"
          userinfo := fun _ => .err "unreachable"
          upsert := fun _ => none }
        (some { id := "5", email := "e@f.com", name := "E", picture := "pe" })).response =
      { status := 500, body := .authFailedPage "Request failed with status code 400" } ∧
    (callbackHandler { code := some "c5", error := none }
        { tokenExchange := .err "Request failed with status code 400"
          userinfo := fun _ => .err "unreachable"
          upsert := fun _ => none }
        (some { id := "5", email := "e@f.com", name := "E", picture := "pe" })).session =
      some { id := "5", email := "e@f.com", name := "E", picture := "pe" } :=
  callback_exchange_failure_500 _ _ _ "Request failed with status code 400"
    rfl rfl (Or.inl rfl)

/-- C6: `/profile` answers 401 with a JSON body carrying `error`, `message`
and a `loginUrl` when no user is authenticated, and 200 with the JSON body
`{message, user, timestamp}` where `user` is the session's user when one
is. -/
theorem profile_requires_auth (sess : Session) (now : String) :
    (sess = none →
      (profileHandler sess now).response =
        { status := 401
          body := .profileErr
            { error := "Unauthorized", message := "Please log in first"
              loginUrl := "/auth/google" } }) ∧
    (∀ u, sess = some u →
      (profileHandler sess now).response =
        { status := 200
          body := .profileOk
            { message := "This is a protected route", user := u, timestamp := now } }) := by
  constructor
  · rintro rfl; rfl
  · rintro u rfl; rfl

theorem profile_requires_auth_witness :
    (profileHandler none "ts-6").response =
      { status := 401
        body := .profileErr
          { error := "Unauthorized", message := "Please log in first"
            loginUrl := "/auth/google" } } ∧
    (profileHandler (some { id := "6", email := "f@g.com", name := "F", picture := "pf" })
        "ts-6").response =
      { status := 200
        body := .profileOk
          { message := "This is a protected route"
            user := { id := "6", email := "f@g.com", name := "F", picture := "pf" }
            timestamp := "ts-6" } } :=
  ⟨(profile_requires_auth none "ts-6").1 rfl,
    (profile_requires_auth
        (some { id := "6", email := "f@g.com", name := "F", picture := "pf" }) "ts-6").2
      { id := "6", email := "f@g.com", name := "F", picture := "pf" } rfl⟩

/-- C7: `/logout` clears the session slot and answers 200, so an
immediately following `/profile` request answers 401, whatever the slot
held before the logout. -/
theorem logout_then_profile_unauthorized (sess : Session) (now : String) :
    (logoutHandler sess).session = none ∧
    (logoutHandler sess).response.status = 200 ∧
    (profileHandler (logoutHandler sess).session now).response.status = 401 := by
  cases sess <;> exact ⟨rfl, rfl, rfl⟩

/-- C8 counterexample: with the Google client id set but the client secret
unset, `/health` reports `hasGoogleOAuth = true` although the Google OAuth
credentials (client id AND client secret, as the spec's validation lists
them) are not all set: the code consults only the client id. -/
theorem health_hasGoogleOAuth_counterexample :
    (healthHandler
        { database := { url := some "https://db8.example", key := some "anon8" }
          oauth := { clientId := some "gid-8", clientSecret := none, redirectUri := "r8" }
          server := { port := "3000", nodeEnv := "development" } }
        none "ts-8").response.body =
      .health
        { status := "OK", timestamp := "ts-8", environment := "development"
          authenticated := false
          config := { port := "3000", hasDatabase := true, hasGoogleOAuth := true } } ∧
    googleCredsSetSpec
        { database := { url := some "https://db8.example", key := some "anon8" }
          oauth := { clientId := some "gid-8", clientSecret := none, redirectUri := "r8" }
          server := { port := "3000", nodeEnv := "development" } } = false :=
  ⟨rfl, rfl⟩

/-- C8 amended: every `/health` request answers 200 with the JSON body
`{status, timestamp, environment, authenticated, config}`; `authenticated`
holds exactly when the session slot is occupied, `hasDatabase` exactly when
the database URL is set (false when empty or unset), and `hasGoogleOAuth`
exactly when the Google client id is set (false when empty or unset; the
client secret is not consulted); the slot is untouched. -/
theorem health_always_200 (c : EnvConfig) (sess : Session) (now : String) :
    (healthHandler c sess now).response.status = 200 ∧
    (healthHandler c sess now).session = sess ∧
    ∃ hb : HealthBody,
      (healthHandler c sess now).response.body = .health hb ∧
      hb.status = "OK" ∧ hb.timestamp = now ∧ hb.environment = c.server.nodeEnv ∧
      (hb.authenticated = true ↔ sess ≠ none) ∧
      hb.config.port = c.server.port ∧
      (hb.config.hasDatabase = true ↔ truthy c.database.url = true) ∧
      (hb.config.hasGoogleOAuth = true ↔ truthy c.oauth.clientId = true) := by
  refine ⟨rfl, rfl, _, rfl, rfl, rfl, rfl, ?_, rfl, Iff.rfl, Iff.rfl⟩
  simp [healthHandler, Option.isSome_iff_ne_none]

/-- C10: the handlers for `/`, `/profile` and `/health` leave the session
slot exactly as it was; `/logout` always clears it; and the callback either
leaves it unchanged or — only on a fully successful run — sets it to the
fetched profile. -/
theorem read_handlers_preserve_session (sess : Session) (c : EnvConfig)
    (nowP nowH : String) (q : Query) (net : CallbackNet) :
    (homeHandler sess).session = sess ∧
    (profileHandler sess nowP).session = sess ∧
    (healthHandler c sess nowH).session = sess ∧
    (logoutHandler sess).session = none ∧
    ((callbackHandler q net sess).session = sess ∨
      ∃ (tok : TokenData) (user : GoogleUser),
        net.tokenExchange = .ok tok ∧
        net.userinfo tok.access_token = .ok user ∧
        net.upsert user = none ∧
        (callbackHandler q net sess).session =
          some { id := user.id, email := user.email
                 name := user.name, picture := user.picture }) := by
  refine ⟨?_, ?_, rfl, ?_, ?_⟩
  · cases sess <;> rfl
  · cases sess <;> rfl
  · cases sess <;> rfl
  · by_cases h : (callbackHandler q net sess).session = sess
    · exact Or.inl h
    · exact Or.inr (callback_session_change_success q net sess h)

end CVrio
